import Mathlib

/-!
Verification development for the AutoDiary firmware (src/src/main.cpp).

The file shallowly embeds the media acquisition and serving pipeline:
the camera producer interactions of the HTTP handlers (handleVideoJpeg,
handleCapture, handleSavedPhoto, handleStatus, onAudioCapture, ...),
the SPIFFS photo store, the global status variables, and the audio
sampling loop (audioCaptureTask).

Hardware and library calls (esp_camera_fb_get, esp_camera_init,
SPIFFS.open, I2S.available, I2S.readBytes, WiFi) are external
collaborators; their outcomes are passed in as explicit environment
values, and every hardware interaction a handler performs is recorded
in an event trace so that resource-lifetime properties can be stated.
-/

namespace AutoDiary

/-- Source line 48: the audio sample-rate constant. -/
def AUDIO_SAMPLE_RATE : Nat := 16000

/-- Source line 49: the audio buffer size constant. -/
def AUDIO_BUFFER_SIZE : Nat := 512

/-- Source line 50: the channel-count constant. -/
def AUDIO_CHANNELS : Nat := 1

/-- Source line 53 declares `short audio_buffer[AUDIO_BUFFER_SIZE * 2]`:
the number of 16-bit slots in the shared audio array. -/
def audioBufferSlots : Nat := AUDIO_BUFFER_SIZE * 2

/-- The extent of the declared `audio_buffer` array in bytes: each of the
`AUDIO_BUFFER_SIZE * 2` slots is a 2-byte `short`. -/
def audioBufferExtentBytes : Nat := audioBufferSlots * 2

/-- Frame-size tags used by the firmware: the stored config requests
FRAMESIZE_UXGA (line 298) and the post-init policy forces FRAMESIZE_VGA
(lines 318 and 461). -/
inductive FrameSize
  | uxga
  | vga
deriving DecidableEq

/-- The fields of the global `camera_config_t config` (lines 277-303) that
matter to the capture pipeline.  Pin assignments are hardware wiring and
are not part of any claim. -/
structure CameraConfig where
  frame_size : FrameSize
  jpeg_quality : Nat
  fb_count : Nat
deriving DecidableEq

/-- The global `config` as filled in by setupCamera (lines 298-303):
UXGA frame size, jpeg quality 12, one frame buffer.  It is reused
verbatim by the recovery path of handleVideoJpeg (line 456). -/
def config : CameraConfig := ⟨FrameSize.uxga, 12, 1⟩

/-- A `camera_fb_t` frame handle: the JPEG payload bytes together with the
reported dimensions.  `fb->len` is the length of `buf`. -/
structure Frame where
  buf : List Nat
  width : Nat
  height : Nat
deriving DecidableEq

/-- The global mutable state of the firmware that the handlers read and
write: the status flags and counters (lines 62-69) plus the contents of
the SPIFFS file `/photo.jpg` written by handleCapture. -/
structure SysState where
  camera_initialized : Bool
  wifi_connected : Bool
  i2s_initialized : Bool
  frame_count : Nat
  spiffs_photo : Option (List Nat)
deriving DecidableEq

/-- The DeviceStatus snapshot emitted by handleStatus (lines 531-548).
`ip_address` and `signal_strength` come from the WiFi collaborator and
are passed in by the caller. -/
structure StatusFields where
  device : String
  firmware_version : String
  wifi_connected : Bool
  ip_address : String
  camera_initialized : Bool
  i2s_initialized : Bool
  frame_count : Nat
  signal_strength : Int
deriving DecidableEq

/-- A response body: plain text, raw image bytes, the serialized status
document, or the static HTML page constant `html_page` (lines 73-117,
whose markup no claim depends on). -/
inductive Body
  | text (s : String)
  | bytes (b : List Nat)
  | json (f : StatusFields)
  | page
deriving DecidableEq

/-- An HTTP response as assembled by the WebServer calls: the status code
and content type passed to `server.send`, the extra headers added through
`server.sendHeader` before the send, and the body. -/
structure Response where
  status : Nat
  contentType : String
  headers : List (String × String)
  body : Body
deriving DecidableEq

/-- Hardware interactions performed by a handler, in program order:
acquire attempts (`esp_camera_fb_get`), releases
(`esp_camera_fb_return`), producer deinit (`esp_camera_deinit`),
producer re-init (`esp_camera_init` with the config it was given and its
outcome), the sensor resolution downgrade (`s->set_framesize`), and a
SPIFFS file write of a given byte count. -/
inductive Event
  | acquireOk
  | acquireFail
  | release
  | deinit
  | initAttempt (cfg : CameraConfig) (ok : Bool)
  | setFramesize (sz : FrameSize)
  | fileWrite (n : Nat)
deriving DecidableEq

/-- Environment of one handleVideoJpeg run: the outcome of the first
`esp_camera_fb_get`, of the `esp_camera_init` recovery call, whether
`esp_camera_sensor_get` returns a sensor, and the outcome of the retry
`esp_camera_fb_get`.  Fields beyond the first are only consulted when
the earlier ones fail as in the source. -/
structure CamEnv where
  firstAcquire : Option Frame
  reinitOk : Bool
  sensorOk : Bool
  retryAcquire : Option Frame
deriving DecidableEq

/-- Environment of one handleCapture run: the outcome of
`esp_camera_fb_get` and whether `SPIFFS.open("/photo.jpg", FILE_WRITE)`
yields a file. -/
structure CaptureEnv where
  acquire : Option Frame
  fileOpenOk : Bool
deriving DecidableEq

/-- Source lines 402-481.  GET /video.jpg: fail fast with 503 when the
camera is uninitialized; otherwise acquire a frame and serve it, and on
an empty acquire run the single recovery sequence (deinit, pause,
re-init with the stored `config`, re-force VGA when a sensor handle is
available, retry the acquire once) before giving up with 503. -/
def handleVideoJpeg (env : CamEnv) (st : SysState) :
    Response × SysState × List Event :=
  if st.camera_initialized = false then
    (⟨503, "text/plain", [], Body.text "Camera not initialized"⟩, st, [])
  else
    match env.firstAcquire with
    | some fb =>
        (⟨200, "image/jpeg",
          [("Content-Type", "image/jpeg"),
           ("Content-Length", toString fb.buf.length),
           ("Cache-Control", "no-cache")],
          Body.bytes fb.buf⟩,
         { st with frame_count := st.frame_count + 1 },
         [Event.acquireOk, Event.release])
    | none =>
        if env.reinitOk then
          match env.retryAcquire with
          | some fb =>
              (⟨200, "image/jpeg",
                [("Content-Type", "image/jpeg"),
                 ("Content-Length", toString fb.buf.length)],
                Body.bytes fb.buf⟩,
               { st with frame_count := st.frame_count + 1 },
               [Event.acquireFail, Event.deinit, Event.initAttempt config true]
                 ++ (if env.sensorOk then [Event.setFramesize FrameSize.vga] else [])
                 ++ [Event.acquireOk, Event.release])
          | none =>
              (⟨503, "text/plain", [], Body.text "Camera capture failed"⟩, st,
               [Event.acquireFail, Event.deinit, Event.initAttempt config true]
                 ++ (if env.sensorOk then [Event.setFramesize FrameSize.vga] else [])
                 ++ [Event.acquireFail])
        else
          (⟨503, "text/plain", [], Body.text "Camera capture failed"⟩, st,
           [Event.acquireFail, Event.deinit, Event.initAttempt config false])

/-- Source lines 483-505.  GET /capture: acquire one frame, write its
bytes to SPIFFS `/photo.jpg`, release the handle on both the
write-success and write-failure paths, and answer 503 immediately when
the acquire comes back empty (no recovery is attempted here). -/
def handleCapture (env : CaptureEnv) (st : SysState) :
    Response × SysState × List Event :=
  if st.camera_initialized = false then
    (⟨503, "text/plain", [], Body.text "Camera not initialized"⟩, st, [])
  else
    match env.acquire with
    | some fb =>
        if env.fileOpenOk then
          (⟨200, "text/plain; charset=utf-8", [], Body.text "拍照成功"⟩,
           { st with spiffs_photo := some fb.buf },
           [Event.acquireOk, Event.fileWrite fb.buf.length, Event.release])
        else
          (⟨503, "text/plain", [], Body.text "Failed to save photo"⟩, st,
           [Event.acquireOk, Event.release])
    | none =>
        (⟨503, "text/plain", [], Body.text "Camera capture failed"⟩, st,
         [Event.acquireFail])

/-- Source lines 513-523.  GET /saved_photo: stream the persisted SPIFFS
file back when it exists, 404 otherwise. -/
def handleSavedPhoto (st : SysState) : Response × SysState × List Event :=
  match st.spiffs_photo with
  | some bytes =>
      (⟨200, "image/jpeg",
        [("Content-Type", "image/jpeg"),
         ("Content-Length", toString bytes.length)],
        Body.bytes bytes⟩, st, [])
  | none =>
      (⟨404, "text/plain", [], Body.text "Photo not found"⟩, st, [])

/-- Source lines 531-548: the DeviceStatus snapshot placed in the JSON
document, taking the WiFi-collaborator values as inputs. -/
def statusFields (ip : String) (rssi : Int) (st : SysState) : StatusFields :=
  ⟨"XIAO-ESP32S3-Sense", "v2.0", st.wifi_connected, ip,
   st.camera_initialized, st.i2s_initialized, st.frame_count, rssi⟩

/-- Source lines 531-548.  GET /status: 200 with the serialized status
document. -/
def handleStatus (ip : String) (rssi : Int) (st : SysState) :
    Response × SysState × List Event :=
  (⟨200, "application/json",
    [("Content-Type", "application/json; charset=utf-8")],
    Body.json (statusFields ip rssi st)⟩, st, [])

/-- Source lines 525-529.  GET /audio: adds a Content-Type audio/wav
header, then sends 200 with the fixed placeholder text. -/
def onAudioCapture (st : SysState) : Response × SysState × List Event :=
  (⟨200, "text/plain", [("Content-Type", "audio/wav")],
    Body.text "Audio stream endpoint"⟩, st, [])

/-- Source lines 398-400.  GET /: the static HTML page. -/
def handleRoot (st : SysState) : Response × SysState × List Event :=
  (⟨200, "text/html; charset=utf-8", [], Body.page⟩, st, [])

/-- Source lines 507-511.  GET /save: stubbed confirmation. -/
def handleSave (st : SysState) : Response × SysState × List Event :=
  (⟨200, "text/plain; charset=utf-8", [], Body.text "照片已保存到 SD 卡"⟩, st, [])

/-- Source lines 550-554.  GET /restart: confirmation, then the process
restarts (the restart itself is outside the model). -/
def handleRestart (st : SysState) : Response × SysState × List Event :=
  (⟨200, "text/plain; charset=utf-8", [], Body.text "设备重启中..."⟩, st, [])

/-- Source lines 556-558.  Fallback for unrecognized paths. -/
def handleNotFound (st : SysState) : Response × SysState × List Event :=
  (⟨404, "text/plain; charset=utf-8", [], Body.text "404 - 页面未找到"⟩, st, [])

/-- One inbound request, carrying the hardware outcomes its handler will
observe (the routing table of setupWebServer, lines 381-390). -/
inductive Request
  | root
  | videoJpeg (env : CamEnv)
  | capture (env : CaptureEnv)
  | save
  | savedPhoto
  | audio
  | status (ip : String) (rssi : Int)
  | restart
  | other

/-- Dispatch a request to its handler (setupWebServer routing). -/
def dispatch : Request → SysState → Response × SysState × List Event
  | Request.root, st => handleRoot st
  | Request.videoJpeg env, st => handleVideoJpeg env st
  | Request.capture env, st => handleCapture env st
  | Request.save, st => handleSave st
  | Request.savedPhoto, st => handleSavedPhoto st
  | Request.audio, st => onAudioCapture st
  | Request.status ip rssi, st => handleStatus ip rssi st
  | Request.restart, st => handleRestart st
  | Request.other, st => handleNotFound st

/-- Run a sequence of requests to completion, one after the other (the
single-threaded `server.handleClient` loop), threading the state and
concatenating the hardware-event traces. -/
def runRequests : List Request → SysState → SysState × List Event
  | [], st => (st, [])
  | r :: rs, st =>
      ((runRequests rs (dispatch r st).2.1).1,
       (dispatch r st).2.2 ++ (runRequests rs (dispatch r st).2.1).2)

/-- Replay a trace against the capacity-1 frame pool, starting from `k`
outstanding handles: an acquire may only succeed with no handle
outstanding, a release only with exactly one; `none` marks a pool-safety
violation, `some j` the number of handles still outstanding. -/
def runOutstanding : Nat → List Event → Option Nat
  | k, [] => some k
  | k, Event.acquireOk :: t => if k = 0 then runOutstanding 1 t else none
  | k, Event.release :: t => if k = 1 then runOutstanding 0 t else none
  | k, _ :: t => runOutstanding k t

/-- Recognizer for the producer-deinit event that opens the recovery
sequence. -/
def isDeinit : Event → Bool
  | Event.deinit => true
  | _ => false

/-- Recognizer for acquire attempts (successful or failed). -/
def isAcquireEvent : Event → Bool
  | Event.acquireOk => true
  | Event.acquireFail => true
  | _ => false

/-- Number of recovery sequences in a trace, counted by their
`esp_camera_deinit` step. -/
def recoveryCount (t : List Event) : Nat := (t.filter isDeinit).length

/-- Number of `esp_camera_fb_get` calls in a trace. -/
def acquireAttempts (t : List Event) : Nat := (t.filter isAcquireEvent).length

/-- The shared audio state: the byte contents of `audio_buffer`
(line 53), the cumulative counter `audio_bytes_captured` (line 69), and
the flag `audio_data_ready` (line 55). -/
structure AudioState where
  audio_buffer : List Nat
  audio_bytes_captured : Nat
  audio_data_ready : Bool
deriving DecidableEq

/-- Source lines 587-588: the request size handed to `I2S.readBytes`,
the available byte count clamped to `AUDIO_BUFFER_SIZE * 2`. -/
def bytesToRead (avail : Nat) : Nat :=
  if avail > AUDIO_BUFFER_SIZE * 2 then AUDIO_BUFFER_SIZE * 2 else avail

/-- Source lines 581-597: one iteration of the audio loop body.  `avail`
is what `I2S.available()` reports and `data` the byte stream the
hardware would deliver; `I2S.readBytes` transfers
`min data.length (bytesToRead avail)` bytes into the front of the
buffer.  Returns the new state and `some n` when a read of `n` bytes was
performed (`none` when zero bytes were available and nothing ran). -/
def fillCycle (avail : Nat) (data : List Nat) (st : AudioState) :
    AudioState × Option Nat :=
  if avail > 0 then
    let toRead := bytesToRead avail
    let n := min data.length toRead
    ({ audio_buffer := data.take n ++ st.audio_buffer.drop n,
       audio_bytes_captured :=
         if n > 0 then st.audio_bytes_captured + n else st.audio_bytes_captured,
       audio_data_ready := if n > 0 then true else st.audio_data_ready },
     some n)
  else (st, none)

/-- Source lines 361-377.  setupI2S: the sampler-ready flag is raised
only when `I2S.begin` succeeds; on failure the function returns with the
flag untouched. -/
def setupI2S (beginOk : Bool) (st : SysState) : SysState :=
  if beginOk then { st with i2s_initialized := true } else st

/-- The body of the `while (1)` loop of audioCaptureTask over a list of
ticks, each tick carrying that iteration's `I2S.available()` value and
hardware byte stream.  The `i2s_initialized` flag is set once before the
tasks start and never written again, so it is a loop constant. -/
def audioLoop (flag : Bool) :
    List (Nat × List Nat) → AudioState → AudioState × List (Option Nat)
  | [], st => (st, [])
  | (avail, data) :: rest, st =>
      if flag then
        ((audioLoop flag rest (fillCycle avail data st).1).1,
         (fillCycle avail data st).2
           :: (audioLoop flag rest (fillCycle avail data st).1).2)
      else
        ((audioLoop flag rest st).1, (audioLoop flag rest st).2)

/-- Source lines 571-601.  audioCaptureTask: when `i2s_initialized` is
false on entry the task deletes itself and returns at once — no loop
iteration ever runs; otherwise it runs the fill loop over its ticks. -/
def audioCaptureTask (flag : Bool) (ticks : List (Nat × List Nat))
    (st : AudioState) : AudioState × List (Option Nat) :=
  if flag = false then (st, [])
  else audioLoop flag ticks st

/-- A ready system state: camera and sampler initialized, no photo
persisted yet, no frames served. -/
def st0 : SysState := ⟨true, true, true, 0, none⟩

/-- An uninitialized-camera state. -/
def stUninit : SysState := ⟨false, true, false, 0, none⟩

/-! ## Helper lemmas on the frame-pool replay -/

theorem runOutstanding_append (t₁ t₂ : List Event) (k : Nat) :
    runOutstanding k (t₁ ++ t₂)
      = (runOutstanding k t₁).bind (fun j => runOutstanding j t₂) := by
  induction t₁ generalizing k with
  | nil => simp [runOutstanding]
  | cons e t ih =>
      cases e <;> simp only [List.cons_append, runOutstanding] <;>
        first
          | exact ih _
          | (split <;> simp [ih])

theorem handleVideoJpeg_pool (env : CamEnv) (st : SysState) :
    runOutstanding 0 (handleVideoJpeg env st).2.2 = some 0 := by
  obtain ⟨fa, ri, so, ra⟩ := env
  unfold handleVideoJpeg
  cases hc : st.camera_initialized <;> cases fa <;> cases ri <;> cases so <;>
    cases ra <;> simp [hc, runOutstanding]

theorem handleCapture_pool (env : CaptureEnv) (st : SysState) :
    runOutstanding 0 (handleCapture env st).2.2 = some 0 := by
  obtain ⟨fa, fo⟩ := env
  unfold handleCapture
  cases hc : st.camera_initialized <;> cases fa <;> cases fo <;>
    simp [hc, runOutstanding]

theorem dispatch_pool (r : Request) (st : SysState) :
    runOutstanding 0 (dispatch r st).2.2 = some 0 := by
  cases r with
  | videoJpeg env => exact handleVideoJpeg_pool env st
  | capture env => exact handleCapture_pool env st
  | savedPhoto =>
      cases h : st.spiffs_photo <;>
        simp [dispatch, handleSavedPhoto, h, runOutstanding]
  | root => rfl
  | save => rfl
  | audio => rfl
  | status ip rssi => rfl
  | restart => rfl
  | other => rfl

/-! ## Claims -/

/-- Claim C3: every frame handle a handler successfully acquires is
released exactly once before the handler completes, on every path
including error paths, so across any sequence of requests the capacity-1
frame pool is respected: replaying the concatenated hardware trace never
sees an acquire with a handle outstanding or an unmatched release, and
ends with zero handles outstanding. -/
theorem frame_handles_balanced (reqs : List Request) (st : SysState) :
    runOutstanding 0 (runRequests reqs st).2 = some 0 := by
  induction reqs generalizing st with
  | nil => rfl
  | cons r rs ih =>
      simp only [runRequests]
      rw [runOutstanding_append, dispatch_pool r st]
      simpa using ih (dispatch r st).2.1

/-- Claim C1, counterexample: with the camera initialized, a /capture
request whose acquire comes back empty performs zero recovery sequences
(the trace holds the failed acquire and nothing else) and answers 503 at
once — refuting the claim that every handler attempts exactly one
recovery sequence after a failed initial acquire. -/
theorem capture_no_recovery_counterexample :
    (handleCapture ⟨none, true⟩ st0).2.2 = [Event.acquireFail] ∧
    recoveryCount (handleCapture ⟨none, true⟩ st0).2.2 = 0 ∧
    (handleCapture ⟨none, true⟩ st0).1.status = 503 := by
  decide

/-- Claim C1, amended: only the /video.jpg handler recovers.  With the
camera initialized and the initial acquire failing, handleVideoJpeg runs
exactly one recovery sequence — deinit, re-init with the stored config,
the VGA downgrade when a sensor handle is available, and at most one
retry acquire (exactly one when the re-init succeeded) — and answers 503
when the re-init or the retry fails; handleCapture performs no recovery
at all and propagates the failure directly as 503. -/
theorem video_recovery_amended (env : CamEnv) (cenv : CaptureEnv)
    (st : SysState) (hinit : st.camera_initialized = true) :
    (env.firstAcquire = none →
      recoveryCount (handleVideoJpeg env st).2.2 = 1 ∧
      Event.initAttempt config env.reinitOk ∈ (handleVideoJpeg env st).2.2 ∧
      (env.reinitOk = true → env.sensorOk = true →
        Event.setFramesize FrameSize.vga ∈ (handleVideoJpeg env st).2.2) ∧
      acquireAttempts (handleVideoJpeg env st).2.2
        = (if env.reinitOk then 2 else 1) ∧
      (env.reinitOk = false → (handleVideoJpeg env st).1.status = 503) ∧
      (env.retryAcquire = none → (handleVideoJpeg env st).1.status = 503)) ∧
    (cenv.acquire = none →
      recoveryCount (handleCapture cenv st).2.2 = 0 ∧
      (handleCapture cenv st).1.status = 503) := by
  obtain ⟨fa, ri, so, ra⟩ := env
  obtain ⟨ca, fo⟩ := cenv
  unfold handleVideoJpeg handleCapture
  cases fa <;> cases ri <;> cases so <;> cases ra <;> cases ca <;> cases fo <;>
    simp [hinit, recoveryCount, acquireAttempts, isDeinit, isAcquireEvent]

/-- Claim C1 witness: concrete instance of the amended claim — first
acquire empty, re-init succeeds, retry empty: one recovery, final 503;
and /capture with an empty acquire: zero recoveries. -/
theorem video_recovery_amended_witness :
    recoveryCount (handleVideoJpeg ⟨none, true, true, none⟩ st0).2.2 = 1 ∧
    (handleVideoJpeg ⟨none, true, true, none⟩ st0).1.status = 503 ∧
    recoveryCount (handleCapture ⟨none, false⟩ st0).2.2 = 0 :=
  ⟨((video_recovery_amended ⟨none, true, true, none⟩ ⟨none, false⟩ st0
      rfl).1 rfl).1,
   ((video_recovery_amended ⟨none, true, true, none⟩ ⟨none, false⟩ st0
      rfl).1 rfl).2.2.2.2.2 rfl,
   ((video_recovery_amended ⟨none, true, true, none⟩ ⟨none, false⟩ st0
      rfl).2 rfl).1⟩

/-- Claim C2: the frame_count field that /status reports grows by
exactly 1 across a /video.jpg request answered 200 (first acquire or
recovery path alike) and is unchanged across one answered 503. -/
theorem frame_count_per_video_request (env : CamEnv) (ip : String)
    (rssi : Int) (st : SysState) :
    ((handleVideoJpeg env st).1.status = 200 →
      (statusFields ip rssi (handleVideoJpeg env st).2.1).frame_count
        = (statusFields ip rssi st).frame_count + 1) ∧
    ((handleVideoJpeg env st).1.status = 503 →
      (statusFields ip rssi (handleVideoJpeg env st).2.1).frame_count
        = (statusFields ip rssi st).frame_count) := by
  obtain ⟨fa, ri, so, ra⟩ := env
  unfold handleVideoJpeg statusFields
  cases hc : st.camera_initialized <;> cases fa <;> cases ri <;> cases ra <;>
    simp [hc]

/-- Claim C2 witness: a successful first acquire raises the reported
frame_count by one. -/
theorem frame_count_per_video_request_witness :
    (statusFields "192.168.1.20" (-40)
        (handleVideoJpeg ⟨some ⟨[255, 216, 255], 640, 480⟩, false, false,
          none⟩ st0).2.1).frame_count
      = (statusFields "192.168.1.20" (-40) st0).frame_count + 1 :=
  (frame_count_per_video_request
    ⟨some ⟨[255, 216, 255], 640, 480⟩, false, false, none⟩
    "192.168.1.20" (-40) st0).1 rfl

/-- Claim C4: with no photo persisted, /saved_photo answers 404; and
whenever a /capture run that acquired frame `fb` answers 200, a
following /saved_photo answers 200 with exactly the bytes of `fb` that
were persisted. -/
theorem saved_photo_roundtrip (env : CaptureEnv) (st : SysState)
    (fb : Frame) (hacq : env.acquire = some fb) :
    (st.spiffs_photo = none →
      (handleSavedPhoto st).1.status = 404 ∧
      (handleSavedPhoto st).1.body = Body.text "Photo not found") ∧
    ((handleCapture env st).1.status = 200 →
      (handleSavedPhoto (handleCapture env st).2.1).1.status = 200 ∧
      (handleSavedPhoto (handleCapture env st).2.1).1.body
        = Body.bytes fb.buf) := by
  constructor
  · intro h
    simp [handleSavedPhoto, h]
  · unfold handleCapture
    cases hc : st.camera_initialized <;> cases hfo : env.fileOpenOk <;>
      simp [hc, hfo, hacq, handleSavedPhoto]

/-- Claim C4 witness: fresh state — /saved_photo is 404; after a
successful /capture of a concrete frame, /saved_photo returns its
bytes. -/
theorem saved_photo_roundtrip_witness :
    ((handleSavedPhoto st0).1.status = 404 ∧
      (handleSavedPhoto st0).1.body = Body.text "Photo not found") ∧
    ((handleSavedPhoto
        (handleCapture ⟨some ⟨[1, 2, 3], 640, 480⟩, true⟩ st0).2.1).1.status
          = 200 ∧
      (handleSavedPhoto
        (handleCapture ⟨some ⟨[1, 2, 3], 640, 480⟩, true⟩ st0).2.1).1.body
          = Body.bytes (⟨[1, 2, 3], 640, 480⟩ : Frame).buf) :=
  ⟨(saved_photo_roundtrip ⟨some ⟨[1, 2, 3], 640, 480⟩, true⟩ st0
      ⟨[1, 2, 3], 640, 480⟩ rfl).1 rfl,
   (saved_photo_roundtrip ⟨some ⟨[1, 2, 3], 640, 480⟩, true⟩ st0
      ⟨[1, 2, 3], 640, 480⟩ rfl).2 rfl⟩

/-- Claim C7: with the camera uninitialized, /video.jpg answers 503 with
body Camera not initialized, leaves the state (frame_count included)
untouched, and performs no hardware interaction at all — the event trace
is empty, so no capture and no recovery is attempted. -/
theorem video_uninitialized_503 (env : CamEnv) (st : SysState)
    (h : st.camera_initialized = false) :
    handleVideoJpeg env st
      = (⟨503, "text/plain", [], Body.text "Camera not initialized"⟩,
         st, []) := by
  simp [handleVideoJpeg, h]

/-- Claim C7 witness: the uninitialized start state. -/
theorem video_uninitialized_503_witness :
    handleVideoJpeg ⟨none, false, false, none⟩ stUninit
      = (⟨503, "text/plain", [], Body.text "Camera not initialized"⟩,
         stUninit, []) :=
  video_uninitialized_503 ⟨none, false, false, none⟩ stUninit rfl

/-- Claim C8: every GET /audio answers 200, carries a Content-Type
audio/wav header, and has the fixed placeholder body. -/
theorem audio_endpoint_ok (st : SysState) :
    (onAudioCapture st).1.status = 200 ∧
    ("Content-Type", "audio/wav") ∈ (onAudioCapture st).1.headers ∧
    (onAudioCapture st).1.body = Body.text "Audio stream endpoint" := by
  refine ⟨rfl, ?_, rfl⟩
  simp [onAudioCapture]

theorem bytesToRead_le (avail : Nat) :
    bytesToRead avail ≤ AUDIO_BUFFER_SIZE * 2 := by
  unfold bytesToRead
  split
  · exact Nat.le_refl _
  · omega

/-- Claim C5: one audio fill cycle copies at most the byte extent of the
shared buffer, adds exactly the number of bytes read to the cumulative
counter, raises the data-ready flag after a read of at least one byte,
and with zero bytes available performs no write and changes nothing (the
data-ready flag included). -/
theorem fill_cycle_behavior (avail : Nat) (data : List Nat)
    (st : AudioState) :
    (∀ n, (fillCycle avail data st).2 = some n →
      n ≤ audioBufferExtentBytes) ∧
    ((fillCycle avail data st).1.audio_bytes_captured
      = st.audio_bytes_captured + ((fillCycle avail data st).2.getD 0)) ∧
    (∀ n, (fillCycle avail data st).2 = some n → 0 < n →
      (fillCycle avail data st).1.audio_data_ready = true) ∧
    (avail = 0 → fillCycle avail data st = (st, none)) := by
  by_cases h : avail > 0
  · have hb := bytesToRead_le avail
    have hcap : AUDIO_BUFFER_SIZE * 2 ≤ audioBufferExtentBytes := by decide
    simp only [fillCycle, if_pos h]
    refine ⟨?_, ?_, ?_, ?_⟩
    · intro m hm
      have hnm : min data.length (bytesToRead avail) = m := by
        simpa using hm
      have := Nat.min_le_right data.length (bytesToRead avail)
      omega
    · simp only [Option.getD_some]
      split <;> omega
    · intro m hm hpos
      have hnm : min data.length (bytesToRead avail) = m := by
        simpa using hm
      simp only [hnm]
      rw [if_pos hpos]
    · intro h0
      omega
  · simp [fillCycle, h]

/-- Claim C5 witness: with zero bytes available nothing happens; a
4-byte fill raises the data-ready flag. -/
theorem fill_cycle_behavior_witness :
    fillCycle 0 [5, 6] ⟨[], 7, false⟩ = (⟨[], 7, false⟩, none) ∧
    (fillCycle 4 [9, 9, 9, 9] ⟨[0, 0, 0, 0, 0, 0], 10, false⟩
      ).1.audio_data_ready = true :=
  ⟨(fill_cycle_behavior 0 [5, 6] ⟨[], 7, false⟩).2.2.2 rfl,
   (fill_cycle_behavior 4 [9, 9, 9, 9]
      ⟨[0, 0, 0, 0, 0, 0], 10, false⟩).2.2.1 4 rfl (by decide)⟩

/-- Claim C6: when the audio sampler was never successfully initialized
before the audio task starts, the task exits at once and no fill cycle
is ever executed over any sequence of ticks — the audio state is never
touched again. -/
theorem audio_task_exits_without_i2s (beginOk : Bool) (st : SysState)
    (ticks : List (Nat × List Nat)) (ast : AudioState)
    (hb : beginOk = false) (h0 : st.i2s_initialized = false) :
    (setupI2S beginOk st).i2s_initialized = false ∧
    audioCaptureTask (setupI2S beginOk st).i2s_initialized ticks ast
      = (ast, []) := by
  subst hb
  have hflag : (setupI2S false st).i2s_initialized = false := by
    simpa [setupI2S] using h0
  exact ⟨hflag, by simp [audioCaptureTask, hflag]⟩

/-- Claim C6 witness: failed I2S begin on the uninitialized state, two
ticks with data on offer — the task still does nothing. -/
theorem audio_task_exits_without_i2s_witness :
    (setupI2S false stUninit).i2s_initialized = false ∧
    audioCaptureTask (setupI2S false stUninit).i2s_initialized
        [(4, [1, 2, 3, 4]), (0, [])] ⟨[], 0, false⟩
      = (⟨[], 0, false⟩, []) :=
  audio_task_exits_without_i2s false stUninit [(4, [1, 2, 3, 4]), (0, [])]
    ⟨[], 0, false⟩ rfl rfl

/-- Claim C10: the byte count handed to the read in one fill cycle is
capped at AUDIO_BUFFER_SIZE * 2 = 1024 bytes, the declared audio_buffer
array is 2048 bytes, and a fill never grows the buffer past its declared
extent — every write stays in bounds. -/
theorem audio_write_within_bounds (avail : Nat) (data : List Nat)
    (st : AudioState)
    (hlen : st.audio_buffer.length = audioBufferExtentBytes) :
    (∀ n, (fillCycle avail data st).2 = some n →
      n ≤ AUDIO_BUFFER_SIZE * 2) ∧
    AUDIO_BUFFER_SIZE * 2 = 1024 ∧
    audioBufferExtentBytes = 2048 ∧
    (fillCycle avail data st).1.audio_buffer.length
      = audioBufferExtentBytes := by
  have he : audioBufferExtentBytes = 2048 := by decide
  have h1024 : AUDIO_BUFFER_SIZE * 2 = 1024 := by decide
  by_cases h : avail > 0
  · have hb := bytesToRead_le avail
    simp only [fillCycle, if_pos h]
    refine ⟨?_, h1024, he, ?_⟩
    · intro m hm
      have hnm : min data.length (bytesToRead avail) = m := by
        simpa using hm
      have := Nat.min_le_right data.length (bytesToRead avail)
      omega
    · have hmin := Nat.min_le_left data.length (bytesToRead avail)
      have hmin2 := Nat.min_le_right data.length (bytesToRead avail)
      simp only [List.length_append, List.length_take, List.length_drop,
        hlen]
      omega
  · simp only [fillCycle, if_neg h]
    exact ⟨by simp, h1024, he, hlen⟩

/-- Claim C10 witness: a fill on a full-extent buffer keeps the extent
and the constants are as claimed. -/
theorem audio_write_within_bounds_witness :
    AUDIO_BUFFER_SIZE * 2 = 1024 ∧
    (fillCycle 3 [1, 2] ⟨List.replicate 2048 0, 0, false⟩
      ).1.audio_buffer.length = audioBufferExtentBytes :=
  ⟨(audio_write_within_bounds 3 [1, 2] ⟨List.replicate 2048 0, 0, false⟩
      (by rw [List.length_replicate]; decide)).2.1,
   (audio_write_within_bounds 3 [1, 2] ⟨List.replicate 2048 0, 0, false⟩
      (by rw [List.length_replicate]; decide)).2.2.2⟩

end AutoDiary
